import Mathlib

/-
Verification of the xiaohongshu content-generation orchestration core.

Shallow embedding of:
  - src/core/content_generator.py  (ContentGenerator.execute_step)
  - src/core/xhs_llm_client.py     (Server.list_tools / execute_tool / cleanup,
                                    LLMClient.get_tool_call_response)
  - src/core/llm_adapter.py        (OpenAIAdapter / AnthropicAdapter.chat_completion)
  - src/config/config_manager.py   (ConfigManager.load_config)
  - src/app.py                     (get_config handler)

External effects (the LLM provider, MCP tool sessions, the file system) are
modelled as explicit oracles passed in as parameters; machine behaviour that
Python realises with exceptions is modelled with Except.
-/

namespace Xhs

/-- Whether the character list s starts with the character list pat. -/
def charsStartWith : List Char → List Char → Bool
  | [], _ => true
  | _ :: _, [] => false
  | p :: ps, c :: cs => (p == c) && charsStartWith ps cs

/-- Whether the character list s contains pat as a contiguous run. -/
def charsContain (pat : List Char) : List Char → Bool
  | [] => pat.isEmpty
  | c :: cs => charsStartWith pat (c :: cs) || charsContain pat cs

/-- Substring test: Python "pat in s". -/
def strContains (s pat : String) : Bool :=
  charsContain pat.data s.data

/-- Python str-or-default: "x or d" where the empty string and None are falsy. -/
def pyOr (o : Option String) (d : String) : String :=
  match o with
  | none => d
  | some s => if s = "" then d else s

/-- Python str.lower, at ASCII granularity (the three tokens checked are ASCII
or Chinese, on which Python's lower agrees with per-character ASCII lowering). -/
def strLower (s : String) : String :=
  ⟨s.data.map Char.toLower⟩

/-- Success-marker test from ContentGenerator.execute_step: the stringified tool
result is lower-cased and checked for any of the three literal tokens. -/
def hasSuccessToken (result : String) : Bool :=
  let r := strLower result
  strContains r "success" || strContains r "成功" || strContains r "published"

/-- A tool invocation requested by the model (id, function name, raw arguments string). -/
structure ToolCall where
  id : String
  name : String
  arguments : String
deriving Repr, DecidableEq

/-- One model response: optional text content and the (possibly empty) tool-call list.
Python's tool_calls = None and tool_calls = [] are both falsy; both map to []. -/
structure ModelResponse where
  content : Option String
  toolCalls : List ToolCall
deriving Repr, DecidableEq

/-- Conversation message, by role. -/
inductive ChatMessage where
  | system (content : String)
  | user (content : String)
  | assistant (content : String) (toolCalls : List ToolCall)
  | tool (toolCallId : String) (content : String)
deriving Repr, DecidableEq

/-- One MCP server connection as execute_step sees it: its name, whether its
session is live (initialized), the tool names its list_tools reports, and an
oracle giving the outcome of execute_tool (already folded over retries:
ok = returned value, error = exception raised after retry exhaustion). -/
structure Server where
  name : String
  initialized : Bool
  tools : List String
  exec : String → String → Except String String

/-- The dispatch scan of ContentGenerator.execute_step (lines 346-358):
for each server, list_tools is awaited (raising RuntimeError when the session
is not initialized); when the server declares the tool, execute_tool runs:
on success the scan breaks, on exception the result becomes "Error: ..." and
the scan continues with the next server.  acc is the running tool_result. -/
def findTool (servers : List Server) (toolName args : String) (acc : Option String) :
    Except String (Option String) :=
  match servers with
  | [] => .ok acc
  | s :: rest =>
    if s.initialized = false then
      .error ("Server " ++ s.name ++ " not initialized")
    else if s.tools.contains toolName then
      match s.exec toolName args with
      | .ok r => .ok (some r)
      | .error e => findTool rest toolName args (some ("Error: " ++ e))
    else
      findTool rest toolName args acc

/-- The not-found soft result of execute_step line 358. -/
def notFoundMsg (toolName : String) : String := "未找到工具 " ++ toolName

/-- Full tool dispatch: the scan, then the None result replaced by the
descriptive not-found string. -/
def dispatchTool (servers : List Server) (toolName args : String) : Except String String :=
  (findTool servers toolName args none).map (fun r => r.getD (notFoundMsg toolName))

/-- Recorded tool-call detail (execute_step lines 373-379). -/
structure ToolDetail where
  iteration : Nat
  name : String
  arguments : String
  result : String
deriving Repr, DecidableEq

/-- Mutable state of one execute_step run.  callsMade counts the model calls
issued so far (get_tool_call_response and get_final_response invocations);
it doubles as the index of the next model-oracle consultation. -/
structure StepState where
  messages : List ChatMessage
  details : List ToolDetail
  publishSuccess : Bool
  publishError : Option String
  callsMade : Nat
deriving Repr, DecidableEq

/-- Environment of one execute_step run: the live server list and the model
oracle (k-th model call, counting the initial get_tool_call_response as 0). -/
structure StepEnv where
  servers : List Server
  model : Nat → ModelResponse

/-- Execute one requested tool call (execute_step lines 336-386): dispatch,
publish_content success/failure detection, detail recording, tool message. -/
def execOneCall (servers : List Server) (iter : Nat) (tc : ToolCall) (st : StepState) :
    Except String StepState :=
  match dispatchTool servers tc.name tc.arguments with
  | .error e => .error e
  | .ok res =>
    let st :=
      if tc.name = "publish_content" then
        if hasSuccessToken res then { st with publishSuccess := true }
        else { st with publishError := some res }
      else st
    .ok { st with
          details := st.details ++ [⟨iter, tc.name, tc.arguments, res⟩],
          messages := st.messages ++ [ChatMessage.tool tc.id res] }

/-- Execute the whole tool-call list of one model turn, in order. -/
def processCalls (servers : List Server) (iter : Nat) :
    List ToolCall → StepState → Except String StepState
  | [], st => .ok st
  | tc :: rest, st =>
    match execOneCall servers iter tc st with
    | .error e => .error e
    | .ok st1 => processCalls servers iter rest st1

/-- Fixed confirmation string of execute_step line 392. -/
def publishedMsg : String := "内容已成功发布到小红书平台"

/-- Fixed exhaustion fallback of execute_step line 412. -/
def exhaustedMsg : String := "任务执行超出最大迭代次数限制"

/-- Result of running one iteration of the while loop. -/
structure LoopOut where
  content : String
  iteration : Nat
  state : StepState
deriving Repr, DecidableEq

/-- One loop-body outcome: done with a final answer, or continue with the
follow-up response. -/
inductive IterOut where
  | done (out : LoopOut)
  | next (resp : ModelResponse) (st : StepState)
deriving Repr, DecidableEq

/-- The state carried by a loop-body outcome. -/
def IterOut.state : IterOut → StepState
  | .done out => out.state
  | .next _ st => st

/-- One iteration of the while loop of execute_step (lines 308-408):
increment the round counter, execute the turn's tool calls (appending the
assistant message first), break with the fixed confirmation string when
publish succeeded, otherwise issue the get_final_response call and either
finish with its content or continue with it as the new response. -/
def iterBody (env : StepEnv) (it : Nat) (resp : ModelResponse) (st : StepState) :
    Except String IterOut :=
  let turn : Except String StepState :=
    if resp.toolCalls.isEmpty then .ok st
    else
      processCalls env.servers (it + 1) resp.toolCalls
        { st with messages :=
            st.messages ++ [ChatMessage.assistant (pyOr resp.content "") resp.toolCalls] }
  match turn with
  | .error e => .error e
  | .ok st1 =>
    if st1.publishSuccess then
      .ok (.done { content := publishedMsg, iteration := it + 1, state := st1 })
    else
      let fr := env.model st1.callsMade
      let st2 := { st1 with callsMade := st1.callsMade + 1 }
      if fr.toolCalls.isEmpty then
        .ok (.done { content := pyOr fr.content "", iteration := it + 1, state := st2 })
      else
        .ok (.next fr st2)

/-- The while loop with its Python while-else: fuel is the remaining
iteration budget; on exhaustion the final answer is the last
get_final_response content with the fixed exhaustion fallback (Python
"final_message.content or ...", referencing the last follow-up response). -/
def runLoop (env : StepEnv) :
    Nat → Nat → ModelResponse → Option ModelResponse → StepState → Except String LoopOut
  | 0, it, _, lastFinal, st =>
    match lastFinal with
    | some fm => .ok { content := pyOr fm.content exhaustedMsg, iteration := it, state := st }
    | none => .error "final_message referenced before assignment"
  | fuel + 1, it, resp, _, st =>
    match iterBody env it resp st with
    | .error e => .error e
    | .ok (.done out) => .ok out
    | .ok (.next fr st2) => runLoop env fuel (it + 1) fr (some fr) st2

/-- max_iterations of execute_step line 295. -/
def maxIterations : Nat := 10

/-- The step-result dictionary of execute_step lines 415-435.  On the error
path Python only populates step_id, step_title, error and success; the other
fields here take placeholder values.  callsMade is instrumentation: the
number of model calls issued during the run. -/
structure StepResult where
  stepId : String
  stepTitle : String
  toolCalls : List ToolDetail
  totalIterations : Nat
  response : String
  success : Bool
  publishSuccess : Bool
  publishError : Option String
  error : Option String
  callsMade : Nat
deriving Repr, DecidableEq

/-- ContentGenerator.execute_step: initial model call, zero-tool-call early
return, otherwise the bounded loop; any exception escaping the loop is caught
and returned as a failed step result. -/
def execStep (env : StepEnv) (stepId stepTitle systemPrompt userPrompt : String) : StepResult :=
  let st0 : StepState :=
    { messages := [ChatMessage.system systemPrompt, ChatMessage.user userPrompt],
      details := [], publishSuccess := false, publishError := none, callsMade := 1 }
  let r0 := env.model 0
  if r0.toolCalls.isEmpty then
    { stepId := stepId, stepTitle := stepTitle, toolCalls := [], totalIterations := 0,
      response := pyOr r0.content "", success := true, publishSuccess := false,
      publishError := none, error := none, callsMade := 1 }
  else
    match runLoop env maxIterations 0 r0 none st0 with
    | .ok out =>
      { stepId := stepId, stepTitle := stepTitle, toolCalls := out.state.details,
        totalIterations := out.iteration, response := out.content, success := true,
        publishSuccess := out.state.publishSuccess, publishError := out.state.publishError,
        error := none, callsMade := out.state.callsMade }
    | .error e =>
      { stepId := stepId, stepTitle := stepTitle, toolCalls := [], totalIterations := 0,
        response := "", success := false, publishSuccess := false, publishError := none,
        error := some e, callsMade := 0 }

/-! Server.execute_tool (xhs_llm_client.py lines 156-197): the retry loop. -/

/-- Observable outcome of one execute_tool run: the returned value
(ok none models Python falling out of the while loop and returning None,
which happens only when retries = 0), the number of call_tool attempts
performed, and the log of sleeps (each entry the duration slept). -/
structure ExecOutcome where
  result : Except String (Option String)
  attempts : Nat
  sleeps : List ℚ
deriving Repr

/-- The while loop of execute_tool.  call is the session oracle for the k-th
attempt (ok = returned result, error = raised exception); remaining is
retries - attempt.  On an exception: if another attempt remains, sleep delay
and retry; otherwise re-raise the last error. -/
def execAttempts (call : Nat → Except String String) (delay : ℚ) :
    Nat → Nat → Nat → List ℚ → ExecOutcome
  | _attempt, 0, attemptsMade, sleepLog => ⟨.ok none, attemptsMade, sleepLog⟩
  | attempt, remaining + 1, attemptsMade, sleepLog =>
    match call attempt with
    | .ok v => ⟨.ok (some v), attemptsMade + 1, sleepLog⟩
    | .error e =>
      if remaining = 0 then ⟨.error e, attemptsMade + 1, sleepLog⟩
      else execAttempts call delay (attempt + 1) remaining (attemptsMade + 1) (sleepLog ++ [delay])

/-- Default retries of execute_tool. -/
def defaultRetries : Nat := 2

/-- Default delay of execute_tool (1.0 second). -/
def defaultDelay : ℚ := 1

/-- Server.execute_tool: RuntimeError when the session is not initialized,
otherwise the retry loop. -/
def executeTool (serverName : String) (sessionLive : Bool)
    (call : Nat → Except String String) (retries : Nat) (delay : ℚ) :
    Except String ExecOutcome :=
  if sessionLive = false then .error ("Server " ++ serverName ++ " not initialized")
  else .ok (execAttempts call delay 0 retries 0 [])

/-! LLMClient.get_tool_call_response and the two adapters
(xhs_llm_client.py lines 292-326, llm_adapter.py). -/

/-- The keyword arguments chat_completion receives.  The outer Option records
whether the key is present in kwargs at all; for tool_choice the inner Option
is its value (Python None allowed). -/
structure Kwargs where
  tool_choice : Option (Option String)
  temperature : Option ℚ
  max_tokens : Option Nat
deriving Repr, DecidableEq

/-- Python truthiness of the tools argument: None and the empty list are falsy. -/
def toolsTruthy (tools : Option (List String)) : Bool :=
  match tools with
  | none => false
  | some l => !l.isEmpty

/-- The request dictionary OpenAIAdapter.chat_completion hands to
client.chat.completions.create.  Tool payloads are abstracted as strings. -/
structure OpenAIRequest where
  model : String
  messages : List ChatMessage
  tools : Option (List String)
  tool_choice : Option (Option String)
  temperature : Option ℚ
  max_tokens : Option Nat
deriving Repr, DecidableEq

/-- OpenAIAdapter.chat_completion (llm_adapter.py lines 36-58): params starts
with model and messages; tools and tool_choice only when tools is truthy;
temperature and max_tokens only when present in kwargs. -/
def openAIChatCompletion (model : String) (messages : List ChatMessage)
    (tools : Option (List String)) (kw : Kwargs) : OpenAIRequest :=
  let base : OpenAIRequest :=
    { model := model, messages := messages, tools := none, tool_choice := none,
      temperature := none, max_tokens := none }
  let withTools :=
    if toolsTruthy tools then
      { base with
        tools := tools,
        tool_choice := some (match kw.tool_choice with | some v => v | none => some "auto") }
    else base
  let withTemp :=
    match kw.temperature with
    | some t => { withTools with temperature := some t }
    | none => withTools
  match kw.max_tokens with
  | some mt => { withTemp with max_tokens := some mt }
  | none => withTemp

/-- AnthropicAdapter._convert_messages, at role granularity: system messages
pass through unchanged, tool messages become user messages carrying a
tool_result block (block structure abstracted into the content string),
everything else keeps its role. -/
def convertMessage (m : ChatMessage) : ChatMessage :=
  match m with
  | .system c => .system c
  | .tool tid c => .user ("tool_result " ++ tid ++ ": " ++ c)
  | .assistant c tcs => .assistant c tcs
  | .user c => .user c

/-- Whether a message has the system role. -/
def ChatMessage.isSystem : ChatMessage → Bool
  | .system _ => true
  | _ => false

/-- The system-extraction loop of AnthropicAdapter.chat_completion (lines
84-90): each system message overwrites system_message; every other message is
appended to filtered_messages. -/
def extractSystemAux :
    List ChatMessage → Option String → List ChatMessage → Option String × List ChatMessage
  | [], sys, filtered => (sys, filtered)
  | m :: rest, sys, filtered =>
    match m with
    | .system c => extractSystemAux rest (some c) filtered
    | other => extractSystemAux rest sys (filtered ++ [other])

/-- The request dictionary AnthropicAdapter.chat_completion hands to
client.messages.create. -/
structure AnthropicRequest where
  model : String
  messages : List ChatMessage
  system : Option String
  max_tokens : Nat
  tools : Option (List String)
  temperature : Option ℚ
deriving Repr, DecidableEq

/-- AnthropicAdapter.chat_completion (llm_adapter.py lines 73-109): convert
the messages, extract the system message (last one wins; set on the request
only when truthy, i.e. non-empty), max_tokens defaults to 4096 when absent
from kwargs, tools only when truthy, temperature only when present. -/
def anthropicChatCompletion (model : String) (messages : List ChatMessage)
    (tools : Option (List String)) (kw : Kwargs) : AnthropicRequest :=
  let converted := messages.map convertMessage
  let extracted := extractSystemAux converted none []
  { model := model,
    messages := extracted.2,
    system :=
      (match extracted.1 with
       | some c => if c = "" then none else some c
       | none => none),
    max_tokens := (match kw.max_tokens with | some mt => mt | none => 4096),
    tools := if toolsTruthy tools then tools else none,
    temperature := kw.temperature }

/-- Default max_tokens parameter of get_tool_call_response. -/
def defaultMaxTokens : Nat := 32000

/-- The kwargs that LLMClient.get_tool_call_response passes to
adapter.chat_completion (lines 306-311): tool_choice = "auto" if tools else
None, temperature = 0.8, and no max_tokens key at all — the max_tokens
parameter of get_tool_call_response (default 32000) is accepted but never
forwarded. -/
def getToolCallKwargs (tools : Option (List String)) (max_tokens : Nat) : Kwargs :=
  { tool_choice := some (if toolsTruthy tools then some "auto" else none),
    temperature := some ((8 : ℚ) / 10),
    max_tokens := none }

/-- The provider request issued by get_tool_call_response via the OpenAI adapter. -/
def getToolCallRequestOpenAI (model : String) (messages : List ChatMessage)
    (tools : Option (List String)) (max_tokens : Nat) : OpenAIRequest :=
  openAIChatCompletion model messages tools (getToolCallKwargs tools max_tokens)

/-- The provider request issued by get_tool_call_response via the Anthropic adapter. -/
def getToolCallRequestAnthropic (model : String) (messages : List ChatMessage)
    (tools : Option (List String)) (max_tokens : Nat) : AnthropicRequest :=
  anthropicChatCompletion model messages tools (getToolCallKwargs tools max_tokens)

/-! Server.cleanup (xhs_llm_client.py lines 199-207). -/

/-- Connection state relevant to cleanup: the session and stdio_context
references (handles abstracted as strings). -/
structure ServerConn where
  session : Option String
  stdioContext : Option String
deriving Repr, DecidableEq

/-- The try block of cleanup: await exit_stack.aclose() (its outcome is the
oracle parameter; an error there aborts the block before the assignments),
then null out session and stdio_context. -/
def cleanupBody (closeOutcome : Except String Unit) (c : ServerConn) :
    Except String ServerConn :=
  match closeOutcome with
  | .ok _ => .ok { c with session := none, stdioContext := none }
  | .error e => .error e

/-- Server.cleanup: the try block with every Exception caught and only logged,
so the function itself is total (never raises); when aclose raised, the
session and stdio_context assignments were skipped and the state is unchanged. -/
def cleanup (closeOutcome : Except String Unit) (c : ServerConn) : ServerConn :=
  match cleanupBody closeOutcome c with
  | .ok c2 => c2
  | .error _ => c

/-! ConfigManager.load_config (config_manager.py lines 37-50). -/

/-- ConfigManager.load_config: the file-system state is the existence flag and
the outcome of open-plus-json.load (error = any exception there); a missing
file or a failed read/parse yields the empty dictionary, and every exception
is caught, so the function is total (never raises).  The configuration is a
string-to-string dictionary. -/
def loadConfig (fileExists : Bool) (readResult : Except String (List (String × String))) :
    List (String × String) :=
  if fileExists then
    match readResult with
    | .ok cfg => cfg
    | .error _ => []
  else []

/-! The GET /api/config handler (app.py lines 101-118). -/

/-- Python dict.get with no default: first binding of the key, else None. -/
def pyGet (cfg : List (String × String)) (k : String) : Option String :=
  match cfg.find? (fun p => p.1 = k) with
  | some p => some p.2
  | none => none

/-- Python dict.get with a default. -/
def pyGetD (cfg : List (String × String)) (k default : String) : String :=
  (pyGet cfg k).getD default

/-- Python truthiness of an optional string: None and the empty string are falsy. -/
def truthyStr (o : Option String) : Bool :=
  match o with
  | none => false
  | some s => !(s = "")

/-- The masking expression of get_config: three stars when the stored value is
truthy, else the empty string. -/
def maskSecret (o : Option String) : String :=
  if truthyStr o then "***" else ""

/-- The safe_config dictionary returned by get_config. -/
structure SafeConfig where
  api_provider : String
  llm_api_key : String
  openai_base_url : String
  default_model : String
  jina_api_key : String
  tavily_api_key : String
  xhs_mcp_url : String
deriving Repr, DecidableEq

/-- get_config (app.py lines 105-114): load the stored configuration and build
the masked view. -/
def safeConfigOf (cfg : List (String × String)) : SafeConfig :=
  { api_provider := pyGetD cfg "api_provider" "openai",
    llm_api_key := maskSecret (pyGet cfg "llm_api_key"),
    openai_base_url := pyGetD cfg "openai_base_url" "",
    default_model := pyGetD cfg "default_model" "",
    jina_api_key := maskSecret (pyGet cfg "jina_api_key"),
    tavily_api_key := maskSecret (pyGet cfg "tavily_api_key"),
    xhs_mcp_url := pyGetD cfg "xhs_mcp_url" "" }

/-! Concrete environments used to exercise the theorems below. -/

/-- A live connection declaring the publish tool, whose execution reports success. -/
def pubServer : Server :=
  { name := "xhs", initialized := true, tools := ["publish_content"],
    exec := fun _ _ => Except.ok "笔记发布成功" }

/-- A run whose model always requests one publish_content call. -/
def pubEnv : StepEnv :=
  { servers := [pubServer],
    model := fun _ =>
      { content := some "正在发布", toolCalls := [⟨"call9", "publish_content", ""⟩] } }

/-- Loop state as execute_step enters the while loop. -/
def pubState : StepState := ⟨[], [], false, none, 1⟩

/-- A live connection declaring the publish tool, whose execution reports a
rate-limit failure (no success token). -/
def pubFailServer : Server :=
  { name := "xhs", initialized := true, tools := ["publish_content"],
    exec := fun _ _ => Except.ok "Error: rate limited" }

/-- A run against the failing publish connection. -/
def pubFailEnv : StepEnv :=
  { servers := [pubFailServer],
    model := fun _ =>
      { content := some "正在发布", toolCalls := [⟨"call9", "publish_content", ""⟩] } }

/-- A run with no servers whose model always answers with one tool call and
non-empty text, so the iteration budget is always exhausted. -/
def loopingEnv : StepEnv :=
  { servers := [],
    model := fun _ =>
      { content := some "阶段性总结", toolCalls := [⟨"call1", "jina_search", ""⟩] } }

/-- A run whose only connection never initialized (session is None) and whose
model requests a tool call anyway. -/
def deadServerEnv : StepEnv :=
  { servers := [{ name := "xhs", initialized := false, tools := [],
                  exec := fun _ _ => Except.ok "" }],
    model := fun _ =>
      { content := some "开始", toolCalls := [⟨"call1", "jina_search", ""⟩] } }

/-- A run with one live connection that does not declare the requested tool;
the model requests it once, then answers without tool calls. -/
def missingToolEnv : StepEnv :=
  { servers := [{ name := "jina-mcp-tools", initialized := true, tools := ["search_web"],
                  exec := fun _ _ => Except.ok "results" }],
    model := fun k =>
      if k = 0 then { content := some "先生成图片", toolCalls := [⟨"call1", "generate_image", ""⟩] }
      else { content := some "图片工具不可用，改用文字", toolCalls := [] } }

/-- A run whose initial model response carries no tool invocation. -/
def directAnswerEnv : StepEnv :=
  { servers := [], model := fun _ => { content := some "直接回答内容", toolCalls := [] } }

/-- Conversation with two system messages, as get_final_response produces. -/
def twoSystemMsgs : List ChatMessage :=
  [ChatMessage.system "you are a content expert", ChatMessage.user "hello",
   ChatMessage.system "decide whether to continue"]

/-- Empty kwargs. -/
def noKwargs : Kwargs := ⟨none, none, none⟩

/-- Kwargs carrying explicit numeric controls. -/
def passKwargs : Kwargs := ⟨none, some ((1 : ℚ) / 2), some 9000⟩

/-- A stored configuration with one set of secrets. -/
def cfgA : List (String × String) :=
  [("api_provider", "openai"), ("openai_base_url", "https://api.example.com/v1"),
   ("default_model", "claude-sonnet-4-20250514"), ("xhs_mcp_url", "http://localhost:18060/mcp"),
   ("llm_api_key", "sk-first-secret"), ("jina_api_key", "jina-first"),
   ("tavily_api_key", "tvly-first")]

/-- The same stored configuration with different (non-empty) secret values. -/
def cfgB : List (String × String) :=
  [("api_provider", "openai"), ("openai_base_url", "https://api.example.com/v1"),
   ("default_model", "claude-sonnet-4-20250514"), ("xhs_mcp_url", "http://localhost:18060/mcp"),
   ("llm_api_key", "sk-second-secret"), ("jina_api_key", "jina-second"),
   ("tavily_api_key", "tvly-second")]

/-! Helper lemmas about tool dispatch. -/

lemma findTool_ok_of_init (servers : List Server)
    (hinit : ∀ s ∈ servers, s.initialized = true) (toolName args : String) :
    ∀ acc, ∃ r, findTool servers toolName args acc = Except.ok r := by
  induction servers with
  | nil => intro acc; exact ⟨acc, rfl⟩
  | cons s rest ih =>
    intro acc
    have hs : s.initialized = true := hinit s (List.mem_cons_self s rest)
    have hrest : ∀ t ∈ rest, t.initialized = true :=
      fun t ht => hinit t (List.mem_cons_of_mem s ht)
    unfold findTool
    rw [hs]
    simp only [Bool.true_eq_false, if_false]
    by_cases hc : s.tools.contains toolName
    · rw [if_pos hc]
      cases hx : s.exec toolName args with
      | ok r => exact ⟨some r, rfl⟩
      | error e => exact ih hrest (some ("Error: " ++ e))
    · rw [if_neg hc]
      exact ih hrest acc

lemma dispatchTool_ok_of_init (servers : List Server)
    (hinit : ∀ s ∈ servers, s.initialized = true) (toolName args : String) :
    ∃ r, dispatchTool servers toolName args = Except.ok r := by
  obtain ⟨r, hr⟩ := findTool_ok_of_init servers hinit toolName args none
  exact ⟨r.getD (notFoundMsg toolName), by simp [dispatchTool, hr, Except.map]⟩

lemma findTool_not_declared (servers : List Server)
    (hinit : ∀ s ∈ servers, s.initialized = true) (toolName args : String)
    (hnodecl : ∀ s ∈ servers, s.tools.contains toolName = false) :
    ∀ acc, findTool servers toolName args acc = Except.ok acc := by
  induction servers with
  | nil => intro acc; rfl
  | cons s rest ih =>
    intro acc
    have hs : s.initialized = true := hinit s (List.mem_cons_self s rest)
    have hc : s.tools.contains toolName = false := hnodecl s (List.mem_cons_self s rest)
    unfold findTool
    rw [hs, hc]
    simp only [Bool.true_eq_false, if_false]
    exact ih (fun t ht => hinit t (List.mem_cons_of_mem s ht))
      (fun t ht => hnodecl t (List.mem_cons_of_mem s ht)) acc

lemma dispatchTool_not_declared (servers : List Server)
    (hinit : ∀ s ∈ servers, s.initialized = true) (toolName args : String)
    (hnodecl : ∀ s ∈ servers, s.tools.contains toolName = false) :
    dispatchTool servers toolName args = Except.ok (notFoundMsg toolName) := by
  simp [dispatchTool, findTool_not_declared servers hinit toolName args hnodecl none,
    Except.map]

/-! Helper lemmas about one tool call and one turn. -/

lemma execOneCall_spec (servers : List Server) (i : Nat) (tc : ToolCall) (st : StepState)
    (r : String) (hdisp : dispatchTool servers tc.name tc.arguments = Except.ok r) :
    ∃ st1, execOneCall servers i tc st = Except.ok st1 ∧
      st1.details = st.details ++ [⟨i, tc.name, tc.arguments, r⟩] ∧
      st1.callsMade = st.callsMade ∧
      (st.publishSuccess = true → st1.publishSuccess = true) ∧
      (tc.name = "publish_content" → hasSuccessToken r = true → st1.publishSuccess = true) ∧
      (tc.name = "publish_content" → hasSuccessToken r = false →
        st1.publishSuccess = st.publishSuccess ∧ st1.publishError = some r) ∧
      (tc.name ≠ "publish_content" →
        st1.publishSuccess = st.publishSuccess ∧ st1.publishError = st.publishError) := by
  by_cases hn : tc.name = "publish_content"
  · by_cases ht : hasSuccessToken r = true
    · have heq : execOneCall servers i tc st =
          Except.ok ⟨st.messages ++ [ChatMessage.tool tc.id r],
            st.details ++ [⟨i, tc.name, tc.arguments, r⟩], true,
            st.publishError, st.callsMade⟩ := by
        unfold execOneCall; rw [hdisp]; simp [hn, ht]
      exact ⟨_, heq, rfl, rfl, fun _ => rfl, fun _ _ => rfl,
        fun _ h => by simp [ht] at h, fun h => absurd hn h⟩
    · rw [Bool.not_eq_true] at ht
      have heq : execOneCall servers i tc st =
          Except.ok ⟨st.messages ++ [ChatMessage.tool tc.id r],
            st.details ++ [⟨i, tc.name, tc.arguments, r⟩], st.publishSuccess,
            some r, st.callsMade⟩ := by
        unfold execOneCall; rw [hdisp]; simp [hn, ht]
      exact ⟨_, heq, rfl, rfl, fun h => h, fun _ h => by simp [h] at ht,
        fun _ _ => ⟨rfl, rfl⟩, fun h => absurd hn h⟩
  · have heq : execOneCall servers i tc st =
        Except.ok ⟨st.messages ++ [ChatMessage.tool tc.id r],
          st.details ++ [⟨i, tc.name, tc.arguments, r⟩], st.publishSuccess,
          st.publishError, st.callsMade⟩ := by
      unfold execOneCall; rw [hdisp]; simp [hn]
    exact ⟨_, heq, rfl, rfl, fun h => h, fun h _ => absurd h hn,
      fun h _ => absurd h hn, fun _ => ⟨rfl, rfl⟩⟩

lemma processCalls_spec (servers : List Server)
    (hinit : ∀ s ∈ servers, s.initialized = true) (i : Nat) :
    ∀ (tcs : List ToolCall) (st : StepState), ∃ st1,
      processCalls servers i tcs st = Except.ok st1 ∧
      st1.details.length = st.details.length + tcs.length ∧
      st1.callsMade = st.callsMade ∧
      (st.publishSuccess = true → st1.publishSuccess = true) ∧
      ((∃ tc ∈ tcs, tc.name = "publish_content" ∧
          ∃ r, dispatchTool servers tc.name tc.arguments = Except.ok r ∧
            hasSuccessToken r = true) →
        st1.publishSuccess = true) ∧
      ((∀ tc ∈ tcs, tc.name ≠ "publish_content") →
        st1.publishSuccess = st.publishSuccess ∧ st1.publishError = st.publishError) := by
  intro tcs
  induction tcs with
  | nil =>
    intro st
    refine ⟨st, rfl, by simp, rfl, fun h => h, fun h => ?_, fun _ => ⟨rfl, rfl⟩⟩
    obtain ⟨tc, htc, _⟩ := h
    exact absurd htc (List.not_mem_nil tc)
  | cons tc rest ih =>
    intro st
    obtain ⟨r, hdisp⟩ := dispatchTool_ok_of_init servers hinit tc.name tc.arguments
    obtain ⟨stA, hA, hAdet, hAcm, hAmono, hAhit, hAfail, hAother⟩ :=
      execOneCall_spec servers i tc st r hdisp
    obtain ⟨st1, h1, h1det, h1cm, h1mono, h1hit, h1no⟩ := ih stA
    refine ⟨st1, ?_, ?_, ?_, ?_, ?_, ?_⟩
    · simp only [processCalls, hA, h1]
    · rw [h1det, hAdet]; simp; omega
    · rw [h1cm, hAcm]
    · intro hps; exact h1mono (hAmono hps)
    · rintro ⟨tc2, htc2, hname2, r2, hdisp2, htok2⟩
      rcases List.mem_cons.mp htc2 with heq | hmem
      · subst heq
        have : r2 = r := by
          rw [hdisp] at hdisp2
          exact (Except.ok.injEq _ _).mp hdisp2.symm
        exact h1mono (hAhit hname2 (this ▸ htok2))
      · exact h1hit ⟨tc2, hmem, hname2, r2, hdisp2, htok2⟩
    · intro hno
      have h2 := hAother (hno tc (List.mem_cons_self tc rest))
      have h3 := h1no (fun t ht => hno t (List.mem_cons_of_mem tc ht))
      exact ⟨h3.1.trans h2.1, h3.2.trans h2.2⟩

lemma processCalls_append (servers : List Server) (i : Nat) :
    ∀ (l1 l2 : List ToolCall) (st : StepState),
      processCalls servers i (l1 ++ l2) st =
        match processCalls servers i l1 st with
        | .ok st1 => processCalls servers i l2 st1
        | .error e => .error e := by
  intro l1
  induction l1 with
  | nil => intro l2 st; rfl
  | cons tc rest ih =>
    intro l2 st
    simp only [List.cons_append, processCalls]
    cases execOneCall servers i tc st with
    | ok st1 => exact ih l2 st1
    | error e => rfl

lemma processCalls_publish_fail (servers : List Server)
    (hinit : ∀ s ∈ servers, s.initialized = true) (i : Nat)
    (pre post : List ToolCall) (tcp : ToolCall) (r : String) (st : StepState)
    (hps : st.publishSuccess = false)
    (hpre : ∀ tc ∈ pre, tc.name ≠ "publish_content")
    (hpost : ∀ tc ∈ post, tc.name ≠ "publish_content")
    (hname : tcp.name = "publish_content")
    (hdisp : dispatchTool servers tcp.name tcp.arguments = Except.ok r)
    (htok : hasSuccessToken r = false) :
    ∃ st1, processCalls servers i (pre ++ tcp :: post) st = Except.ok st1 ∧
      st1.publishSuccess = false ∧ st1.publishError = some r ∧
      st1.callsMade = st.callsMade := by
  obtain ⟨stA, hA, _, hAcm, _, _, hAno⟩ := processCalls_spec servers hinit i pre st
  have hAfields := hAno hpre
  obtain ⟨stB, hB, _, hBcm, _, _, hBfail, _⟩ :=
    execOneCall_spec servers i tcp stA r hdisp
  have hBfields := hBfail hname htok
  obtain ⟨stC, hC, _, hCcm, _, _, hCno⟩ := processCalls_spec servers hinit i post stB
  have hCfields := hCno hpost
  refine ⟨stC, ?_, ?_, ?_, ?_⟩
  · rw [processCalls_append servers i pre (tcp :: post) st, hA]
    simp only [processCalls, hB, hC]
  · rw [hCfields.1, hBfields.1, hAfields.1, hps]
  · rw [hCfields.2, hBfields.2]
  · rw [hCcm, hBcm, hAcm]

/-! Helper lemmas about one loop iteration. -/

lemma iterBody_publish_success (env : StepEnv) (it : Nat) (resp : ModelResponse)
    (st : StepState) (hinit : ∀ s ∈ env.servers, s.initialized = true)
    (hhit : ∃ tc ∈ resp.toolCalls, tc.name = "publish_content" ∧
      ∃ r, dispatchTool env.servers tc.name tc.arguments = Except.ok r ∧
        hasSuccessToken r = true) :
    ∃ st1, iterBody env it resp st = Except.ok (IterOut.done ⟨publishedMsg, it + 1, st1⟩) ∧
      st1.publishSuccess = true ∧ st1.callsMade = st.callsMade ∧
      st1.details.length = st.details.length + resp.toolCalls.length := by
  have hne : resp.toolCalls ≠ [] := by
    obtain ⟨tc, htc, _⟩ := hhit
    exact List.ne_nil_of_mem htc
  have hempty : resp.toolCalls.isEmpty = false := List.isEmpty_eq_false.mpr hne
  obtain ⟨st1, h1, h1det, h1cm, _, h1hit, _⟩ :=
    processCalls_spec env.servers hinit (it + 1) resp.toolCalls
      { st with messages :=
          st.messages ++ [ChatMessage.assistant (pyOr resp.content "") resp.toolCalls] }
  have hps : st1.publishSuccess = true := h1hit hhit
  refine ⟨st1, ?_, hps, by rw [h1cm], by rw [h1det]⟩
  unfold iterBody
  rw [hempty]
  simp only [Bool.false_eq_true, if_false, h1, hps, if_true]

lemma iterBody_publish_fail (env : StepEnv) (it : Nat) (resp : ModelResponse)
    (st : StepState) (hinit : ∀ s ∈ env.servers, s.initialized = true)
    (pre post : List ToolCall) (tcp : ToolCall) (r : String)
    (hps : st.publishSuccess = false)
    (hsplit : resp.toolCalls = pre ++ tcp :: post)
    (hpre : ∀ tc ∈ pre, tc.name ≠ "publish_content")
    (hpost : ∀ tc ∈ post, tc.name ≠ "publish_content")
    (hname : tcp.name = "publish_content")
    (hdisp : dispatchTool env.servers tcp.name tcp.arguments = Except.ok r)
    (htok : hasSuccessToken r = false) :
    ∃ o, iterBody env it resp st = Except.ok o ∧
      o.state.publishSuccess = false ∧ o.state.publishError = some r ∧
      o.state.callsMade = st.callsMade + 1 := by
  have hne : resp.toolCalls ≠ [] := by
    rw [hsplit]; exact List.append_ne_nil_of_right_ne_nil pre (List.cons_ne_nil tcp post)
  have hempty : resp.toolCalls.isEmpty = false := List.isEmpty_eq_false.mpr hne
  obtain ⟨st1, h1, h1ps, h1pe, h1cm⟩ :=
    processCalls_publish_fail env.servers hinit (it + 1) pre post tcp r
      { st with messages :=
          st.messages ++ [ChatMessage.assistant (pyOr resp.content "") resp.toolCalls] }
      hps hpre hpost hname hdisp htok
  rw [← hsplit] at h1
  by_cases hfr : (env.model st1.callsMade).toolCalls.isEmpty
  · refine ⟨IterOut.done ⟨pyOr (env.model st1.callsMade).content "", it + 1,
      { st1 with callsMade := st1.callsMade + 1 }⟩, ?_, h1ps, h1pe, by rw [h1cm]; rfl⟩
    unfold iterBody
    rw [hempty]
    simp only [Bool.false_eq_true, if_false, h1, h1ps, hfr, if_true]
  · rw [Bool.not_eq_true] at hfr
    refine ⟨IterOut.next (env.model st1.callsMade)
      { st1 with callsMade := st1.callsMade + 1 }, ?_, h1ps, h1pe, by rw [h1cm]; rfl⟩
    unfold iterBody
    rw [hempty]
    simp only [Bool.false_eq_true, if_false, h1, h1ps, hfr, if_true]

lemma iterBody_continues (env : StepEnv) (it : Nat) (resp : ModelResponse)
    (st : StepState) (hinit : ∀ s ∈ env.servers, s.initialized = true)
    (hps : st.publishSuccess = false)
    (hne : resp.toolCalls ≠ [])
    (hnp : ∀ tc ∈ resp.toolCalls, tc.name ≠ "publish_content")
    (hm : (env.model st.callsMade).toolCalls ≠ []) :
    ∃ st2, iterBody env it resp st =
      Except.ok (IterOut.next (env.model st.callsMade) st2) ∧
      st2.publishSuccess = false ∧ st2.callsMade = st.callsMade + 1 := by
  have hempty : resp.toolCalls.isEmpty = false := List.isEmpty_eq_false.mpr hne
  obtain ⟨st1, h1, _, h1cm, _, _, h1no⟩ :=
    processCalls_spec env.servers hinit (it + 1) resp.toolCalls
      { st with messages :=
          st.messages ++ [ChatMessage.assistant (pyOr resp.content "") resp.toolCalls] }
  have h1ps : st1.publishSuccess = false := by
    have := (h1no hnp).1
    simpa [hps] using this
  have hcm : st1.callsMade = st.callsMade := h1cm
  have hfr : (env.model st.callsMade).toolCalls.isEmpty = false :=
    List.isEmpty_eq_false.mpr hm
  refine ⟨{ st1 with callsMade := st1.callsMade + 1 }, ?_, h1ps, by simp [hcm]⟩
  unfold iterBody
  rw [hempty]
  simp only [Bool.false_eq_true, if_false, h1, h1ps, hfr, hcm]

lemma runLoop_exhausts (env : StepEnv)
    (hinit : ∀ s ∈ env.servers, s.initialized = true)
    (hm : ∀ k, (env.model k).toolCalls ≠ [])
    (hnp : ∀ k, ∀ tc ∈ (env.model k).toolCalls, tc.name ≠ "publish_content") :
    ∀ (f it : Nat) (resp : ModelResponse) (lf : Option ModelResponse) (st : StepState),
    st.publishSuccess = false → resp.toolCalls ≠ [] →
    (∀ tc ∈ resp.toolCalls, tc.name ≠ "publish_content") →
    ∃ out, runLoop env (f + 1) it resp lf st = Except.ok out ∧
      out.content = pyOr (env.model (st.callsMade + f)).content exhaustedMsg ∧
      out.iteration = it + f + 1 := by
  intro f
  induction f with
  | zero =>
    intro it resp lf st hps hne hresp
    obtain ⟨st2, hbody, _, _⟩ :=
      iterBody_continues env it resp st hinit hps hne hresp (hm st.callsMade)
    refine ⟨⟨pyOr (env.model st.callsMade).content exhaustedMsg, it + 1, st2⟩, ?_, rfl, rfl⟩
    simp only [runLoop, hbody]
  | succ f ih =>
    intro it resp lf st hps hne hresp
    obtain ⟨st2, hbody, h2ps, h2cm⟩ :=
      iterBody_continues env it resp st hinit hps hne hresp (hm st.callsMade)
    obtain ⟨out, hrun, hcontent, hiter⟩ :=
      ih (it + 1) (env.model st.callsMade) (some (env.model st.callsMade)) st2 h2ps
        (hm st.callsMade) (hnp st.callsMade)
    refine ⟨out, ?_, ?_, ?_⟩
    · simp only [runLoop, hbody]
      exact hrun
    · rw [hcontent, h2cm]
      have harith : st.callsMade + 1 + f = st.callsMade + (f + 1) := by omega
      rw [harith]
    · rw [hiter]; omega

/-! Helper lemmas about the execute_tool retry loop. -/

lemma execAttempts_all_fail (call : Nat → Except String String) (errf : Nat → String)
    (delay : ℚ) :
    ∀ (r : Nat), 1 ≤ r → ∀ (a m : Nat) (sleepLog : List ℚ),
    (∀ k, k < r → call (a + k) = Except.error (errf (a + k))) →
    execAttempts call delay a r m sleepLog =
      ⟨Except.error (errf (a + r - 1)), m + r, sleepLog ++ List.replicate (r - 1) delay⟩ := by
  intro r
  induction r with
  | zero => intro h; omega
  | succ r ih =>
    intro _ a m sleepLog hfail
    have h0 : call a = Except.error (errf a) := by
      have h := hfail 0 (Nat.succ_pos r)
      simpa using h
    by_cases hr : r = 0
    · subst hr
      simp [execAttempts, h0]
    · have hr1 : 1 ≤ r := Nat.one_le_iff_ne_zero.mpr hr
      have hfail2 : ∀ k, k < r → call (a + 1 + k) = Except.error (errf (a + 1 + k)) := by
        intro k hk
        have h := hfail (k + 1) (by omega)
        have harith : a + (k + 1) = a + 1 + k := by omega
        rwa [harith] at h
      have hrec := ih hr1 (a + 1) (m + 1) (sleepLog ++ [delay]) hfail2
      have hidx : a + 1 + r - 1 = a + (r + 1) - 1 := by omega
      have hm2 : m + 1 + r = m + (r + 1) := by omega
      have hrep : List.replicate (r - 1) delay = List.replicate ((r + 1) - 1 - 1) delay := by
        congr 1
      simp only [execAttempts, h0]
      rw [if_neg hr, hrec, hidx, hm2, List.append_assoc]
      congr 1
      have hsplit : (r + 1) - 1 = (r - 1) + 1 := by omega
      rw [hsplit, List.replicate_succ]
      rfl

lemma execAttempts_first_ok (call : Nat → Except String String) (delay : ℚ) (v : String) :
    ∀ (j : Nat), ∀ (r a m : Nat) (sleepLog : List ℚ), j < r →
    (∀ k, k < j → ∃ e, call (a + k) = Except.error e) →
    call (a + j) = Except.ok v →
    execAttempts call delay a r m sleepLog =
      ⟨Except.ok (some v), m + j + 1, sleepLog ++ List.replicate j delay⟩ := by
  intro j
  induction j with
  | zero =>
    intro r a m sleepLog hjr hprev hok
    obtain ⟨r2, rfl⟩ : ∃ r2, r = r2 + 1 := ⟨r - 1, by omega⟩
    have hok0 : call a = Except.ok v := by simpa using hok
    simp [execAttempts, hok0]
  | succ j ih =>
    intro r a m sleepLog hjr hprev hok
    obtain ⟨r2, rfl⟩ : ∃ r2, r = r2 + 1 := ⟨r - 1, by omega⟩
    obtain ⟨e, he0⟩ := hprev 0 (Nat.succ_pos j)
    have he : call a = Except.error e := by simpa using he0
    have hr2 : r2 ≠ 0 := by omega
    have hprev2 : ∀ k, k < j → ∃ e2, call (a + 1 + k) = Except.error e2 := by
      intro k hk
      obtain ⟨e2, he2⟩ := hprev (k + 1) (by omega)
      exact ⟨e2, by rwa [show a + (k + 1) = a + 1 + k by omega] at he2⟩
    have hok2 : call (a + 1 + j) = Except.ok v := by
      rwa [show a + (j + 1) = a + 1 + j by omega] at hok
    have hrec := ih r2 (a + 1) (m + 1) (sleepLog ++ [delay]) (by omega) hprev2 hok2
    simp only [execAttempts, he]
    rw [if_neg hr2, hrec]
    have hm2 : m + 1 + j + 1 = m + (j + 1) + 1 := by omega
    rw [hm2, List.append_assoc, List.replicate_succ]
    rfl

/-! Helper lemmas about the Anthropic system-message extraction. -/

lemma extractSystemAux_append :
    ∀ (l1 l2 : List ChatMessage) (sys : Option String) (f : List ChatMessage),
    extractSystemAux (l1 ++ l2) sys f =
      extractSystemAux l2 (extractSystemAux l1 sys f).1 (extractSystemAux l1 sys f).2 := by
  intro l1
  induction l1 with
  | nil => intro l2 sys f; rfl
  | cons m rest ih =>
    intro l2 sys f
    cases m with
    | system c => simpa only [List.cons_append, extractSystemAux] using ih l2 (some c) f
    | user c => simpa only [List.cons_append, extractSystemAux] using ih l2 sys (f ++ [.user c])
    | assistant c tcs =>
      simpa only [List.cons_append, extractSystemAux] using ih l2 sys (f ++ [.assistant c tcs])
    | tool tid c =>
      simpa only [List.cons_append, extractSystemAux] using ih l2 sys (f ++ [.tool tid c])

lemma extractSystemAux_fst_nosys :
    ∀ (l : List ChatMessage) (sys : Option String) (f : List ChatMessage),
    (∀ m ∈ l, m.isSystem = false) → (extractSystemAux l sys f).1 = sys := by
  intro l
  induction l with
  | nil => intro sys f _; rfl
  | cons m rest ih =>
    intro sys f hno
    have htail : ∀ x ∈ rest, x.isSystem = false :=
      fun x hx => hno x (List.mem_cons_of_mem m hx)
    cases m with
    | system c =>
      have := hno (.system c) (List.mem_cons_self _ _)
      simp [ChatMessage.isSystem] at this
    | user c => simpa only [extractSystemAux] using ih sys (f ++ [.user c]) htail
    | assistant c tcs =>
      simpa only [extractSystemAux] using ih sys (f ++ [.assistant c tcs]) htail
    | tool tid c =>
      simpa only [extractSystemAux] using ih sys (f ++ [.tool tid c]) htail

lemma convertMessage_isSystem (m : ChatMessage) :
    (convertMessage m).isSystem = m.isSystem := by
  cases m <;> rfl

/-! Claim theorems. -/

/-- C1: during a step execution, when an executed invocation named
publish_content returns a result whose lower-cased string form contains
"success", "成功" or "published", the publish-success flag is set, every
remaining tool call of that turn is still executed and recorded (the detail
log grows by the full length of the turn's tool-call list), the loop ends
after that turn with the fixed confirmation string as the final answer and no
further model call is issued (callsMade unchanged); when the publish_content
result contains none of those tokens, the raw result string is recorded as
the publish-error payload and the loop continues (a further model call is
issued). -/
theorem publish_success_ends_loop (env : StepEnv) (it : Nat) (resp : ModelResponse)
    (lf : Option ModelResponse) (st : StepState) (fuel : Nat)
    (hinit : ∀ s ∈ env.servers, s.initialized = true)
    (hps : st.publishSuccess = false) :
    ((∃ tc ∈ resp.toolCalls, tc.name = "publish_content" ∧
        ∃ r, dispatchTool env.servers tc.name tc.arguments = Except.ok r ∧
          hasSuccessToken r = true) →
      ∃ out, runLoop env (fuel + 1) it resp lf st = Except.ok out ∧
        out.content = publishedMsg ∧
        out.state.publishSuccess = true ∧
        out.state.callsMade = st.callsMade ∧
        out.state.details.length = st.details.length + resp.toolCalls.length ∧
        out.iteration = it + 1) ∧
    (∀ pre post tcp r, resp.toolCalls = pre ++ tcp :: post →
      (∀ tc ∈ pre, tc.name ≠ "publish_content") →
      (∀ tc ∈ post, tc.name ≠ "publish_content") →
      tcp.name = "publish_content" →
      dispatchTool env.servers tcp.name tcp.arguments = Except.ok r →
      hasSuccessToken r = false →
      ∃ o, iterBody env it resp st = Except.ok o ∧
        o.state.publishSuccess = false ∧
        o.state.publishError = some r ∧
        o.state.callsMade = st.callsMade + 1) := by
  constructor
  · intro hhit
    obtain ⟨st1, hbody, h1ps, h1cm, h1det⟩ :=
      iterBody_publish_success env it resp st hinit hhit
    refine ⟨⟨publishedMsg, it + 1, st1⟩, ?_, rfl, h1ps, h1cm, h1det, rfl⟩
    simp only [runLoop, hbody]
  · intro pre post tcp r hsplit hpre hpost hname hdisp htok
    exact iterBody_publish_fail env it resp st hinit pre post tcp r
      hps hsplit hpre hpost hname hdisp htok

/-- Witness for C1: a concrete run against a live publish connection whose
result contains 成功; and a concrete failing publish whose error is recorded. -/
theorem publish_success_ends_loop_witness :
    (∃ out, runLoop pubEnv (0 + 1) 0 (pubEnv.model 0) none pubState = Except.ok out ∧
      out.content = publishedMsg ∧
      out.state.publishSuccess = true ∧
      out.state.callsMade = pubState.callsMade ∧
      out.state.details.length = pubState.details.length + (pubEnv.model 0).toolCalls.length ∧
      out.iteration = 0 + 1) ∧
    (∃ o, iterBody pubFailEnv 0 (pubFailEnv.model 0) pubState = Except.ok o ∧
      o.state.publishSuccess = false ∧
      o.state.publishError = some "Error: rate limited" ∧
      o.state.callsMade = pubState.callsMade + 1) := by
  constructor
  · have h := publish_success_ends_loop pubEnv 0 (pubEnv.model 0) none pubState 0
      (by intro s hs; simp only [pubEnv, List.mem_singleton] at hs; rw [hs]; rfl) rfl
    exact h.1 ⟨⟨"call9", "publish_content", ""⟩, by decide, rfl, "笔记发布成功", rfl, rfl⟩
  · have h := publish_success_ends_loop pubFailEnv 0 (pubFailEnv.model 0) none pubState 0
      (by intro s hs; simp only [pubFailEnv, List.mem_singleton] at hs; rw [hs]; rfl) rfl
    exact h.2 [] [] ⟨"call9", "publish_content", ""⟩ "Error: rate limited"
      rfl (by intro x hx; exact absurd hx (List.not_mem_nil x))
      (by intro x hx; exact absurd hx (List.not_mem_nil x)) rfl rfl rfl

/-- C2 counterexample: a run that reaches max_iterations with a last follow-up
response carrying non-empty content ends with that content, not with the
fixed exhaustion message, refuting the claim as stated. -/
theorem exhaustion_answer_counterexample :
    (execStep loopingEnv "step1" "检索" "sys" "usr").success = true ∧
    (execStep loopingEnv "step1" "检索" "sys" "usr").totalIterations = maxIterations ∧
    (execStep loopingEnv "step1" "检索" "sys" "usr").response ≠ exhaustedMsg := by
  refine ⟨rfl, rfl, ?_⟩
  have h : (execStep loopingEnv "step1" "检索" "sys" "usr").response = "阶段性总结" := rfl
  rw [h]
  decide

/-- C2 (amended): a step execution that reaches max_iterations (10) without a
final non-tool-call response has success flag true, and its final answer is
the last follow-up response's content, falling back to the fixed exhaustion
message only when that content is None or empty. -/
theorem exhaustion_keeps_success (env : StepEnv) (stepId stepTitle sp up : String)
    (hinit : ∀ s ∈ env.servers, s.initialized = true)
    (hm : ∀ k, (env.model k).toolCalls ≠ [])
    (hnp : ∀ k, ∀ tc ∈ (env.model k).toolCalls, tc.name ≠ "publish_content") :
    (execStep env stepId stepTitle sp up).success = true ∧
    (execStep env stepId stepTitle sp up).totalIterations = maxIterations ∧
    (execStep env stepId stepTitle sp up).response =
      pyOr (env.model maxIterations).content exhaustedMsg := by
  obtain ⟨out, hrun, hcontent, hiter⟩ :=
    runLoop_exhausts env hinit hm hnp 9 0 (env.model 0) none
      ⟨[ChatMessage.system sp, ChatMessage.user up], [], false, none, 1⟩
      rfl (hm 0) (hnp 0)
  have hne : (env.model 0).toolCalls.isEmpty = false := List.isEmpty_eq_false.mpr (hm 0)
  have hmax : maxIterations = 9 + 1 := rfl
  simp only [execStep]
  rw [hne]
  simp only [Bool.false_eq_true, if_false, hmax, hrun]
  refine ⟨trivial, ?_, ?_⟩
  · rw [hiter]
  · rw [hcontent]

/-- Witness for C2 (amended): the looping run ends after 10 iterations with
the last follow-up content as the answer. -/
theorem exhaustion_keeps_success_witness :
    (execStep loopingEnv "step2" "撰写" "sys" "usr").success = true ∧
    (execStep loopingEnv "step2" "撰写" "sys" "usr").totalIterations = maxIterations ∧
    (execStep loopingEnv "step2" "撰写" "sys" "usr").response =
      pyOr (loopingEnv.model maxIterations).content exhaustedMsg := by
  exact exhaustion_keeps_success loopingEnv "step2" "撰写" "sys" "usr"
    (by intro s hs; simp [loopingEnv] at hs)
    (by intro k; simp [loopingEnv])
    (by intro k tc htc; simp only [loopingEnv, List.mem_singleton] at htc; rw [htc]; decide)

/-- C3 counterexample: with the tool catalog empty because the only connection
never initialized, a model-requested tool call makes list_tools raise inside
the dispatch scan; the exception is only caught at the step boundary, so the
step result is marked failed instead of continuing — refuting the claim's
empty-catalog clause. -/
theorem tool_not_found_dead_server_counterexample :
    (execStep deadServerEnv "step1" "检索" "sys" "usr").success = false ∧
    (execStep deadServerEnv "step1" "检索" "sys" "usr").error =
      some "Server xhs not initialized" := ⟨rfl, rfl⟩

/-- C3 (amended): when every connection consulted by the dispatch scan is
initialized, a tool name declared by no connection yields the descriptive
not-found result string, the result is recorded and fed back, and the step
continues and succeeds; but when a consulted connection is uninitialized,
list_tools raises and the step fails (see the counterexample). -/
theorem tool_not_found_is_soft (env : StepEnv) (stepId stepTitle sp up : String)
    (tc : ToolCall) (c0 c1 : Option String)
    (hinit : ∀ s ∈ env.servers, s.initialized = true)
    (hnodecl : ∀ s ∈ env.servers, s.tools.contains tc.name = false)
    (hname : tc.name ≠ "publish_content")
    (hm0 : env.model 0 = ⟨c0, [tc]⟩)
    (hm1 : env.model 1 = ⟨c1, []⟩) :
    dispatchTool env.servers tc.name tc.arguments = Except.ok (notFoundMsg tc.name) ∧
    (execStep env stepId stepTitle sp up).success = true ∧
    (execStep env stepId stepTitle sp up).toolCalls =
      [⟨1, tc.name, tc.arguments, notFoundMsg tc.name⟩] ∧
    (execStep env stepId stepTitle sp up).totalIterations = 1 ∧
    (execStep env stepId stepTitle sp up).response = pyOr c1 "" := by
  have hdisp := dispatchTool_not_declared env.servers hinit tc.name tc.arguments hnodecl
  refine ⟨hdisp, ?_⟩
  obtain ⟨stB, hB, hBdet, hBcm0, _, _, _, hBother⟩ :=
    execOneCall_spec env.servers 1 tc
      { messages := [ChatMessage.system sp, ChatMessage.user up] ++
          [ChatMessage.assistant (pyOr c0 "") [tc]],
        details := [], publishSuccess := false, publishError := none, callsMade := 1 }
      (notFoundMsg tc.name) hdisp
  have hBps : stB.publishSuccess = false := (hBother hname).1
  have hBcm : stB.callsMade = 1 := hBcm0
  have hBdet2 : stB.details = [⟨1, tc.name, tc.arguments, notFoundMsg tc.name⟩] := hBdet
  have hbody : iterBody env 0 ⟨c0, [tc]⟩
      ⟨[ChatMessage.system sp, ChatMessage.user up], [], false, none, 1⟩ =
      Except.ok (IterOut.done ⟨pyOr c1 "", 0 + 1,
        { stB with callsMade := stB.callsMade + 1 }⟩) := by
    unfold iterBody
    simp only [List.isEmpty_cons, Bool.false_eq_true, if_false, processCalls, hB,
      hBps, hBcm, hm1, List.isEmpty_nil, if_true]
  have hloop : runLoop env maxIterations 0 ⟨c0, [tc]⟩ none
      ⟨[ChatMessage.system sp, ChatMessage.user up], [], false, none, 1⟩ =
      Except.ok ⟨pyOr c1 "", 0 + 1, { stB with callsMade := stB.callsMade + 1 }⟩ := by
    have hmax : maxIterations = 9 + 1 := rfl
    rw [hmax]
    simp only [runLoop, hbody]
  have hne : (env.model 0).toolCalls.isEmpty = false := by rw [hm0]; rfl
  simp only [execStep]
  rw [hne]
  simp only [Bool.false_eq_true, if_false]
  rw [hm0, hloop]
  exact ⟨rfl, hBdet2, rfl, rfl⟩

/-- Witness for C3 (amended): a live connection that does not declare the
requested tool; the step records the not-found result and completes. -/
theorem tool_not_found_is_soft_witness :
    dispatchTool missingToolEnv.servers "generate_image" "" =
      Except.ok (notFoundMsg "generate_image") ∧
    (execStep missingToolEnv "step1" "检索" "sys" "usr").success = true ∧
    (execStep missingToolEnv "step1" "检索" "sys" "usr").toolCalls =
      [⟨1, "generate_image", "", notFoundMsg "generate_image"⟩] ∧
    (execStep missingToolEnv "step1" "检索" "sys" "usr").totalIterations = 1 ∧
    (execStep missingToolEnv "step1" "检索" "sys" "usr").response =
      pyOr (some "图片工具不可用，改用文字") "" := by
  exact tool_not_found_is_soft missingToolEnv "step1" "检索" "sys" "usr"
    ⟨"call1", "generate_image", ""⟩ (some "先生成图片") (some "图片工具不可用，改用文字")
    (by intro s hs; simp only [missingToolEnv, List.mem_singleton] at hs; subst hs; rfl)
    (by intro s hs; simp only [missingToolEnv, List.mem_singleton] at hs; subst hs; rfl)
    (by decide) rfl rfl

/-- C4: on an initialized connection, a tool call whose session call raises on
every attempt performs exactly retries attempts (default 2) with the fixed
delay slept between consecutive attempts (retries - 1 sleeps, no backoff
growth) and then re-raises the last error; an attempt that succeeds returns
its result immediately with no further attempts. -/
theorem execute_tool_retry_contract (serverName : String)
    (call : Nat → Except String String) (errf : Nat → String)
    (retries : Nat) (delay : ℚ) (hr : 1 ≤ retries) :
    ((∀ k, k < retries → call k = Except.error (errf k)) →
      executeTool serverName true call retries delay =
        Except.ok ⟨Except.error (errf (retries - 1)), retries,
          List.replicate (retries - 1) delay⟩) ∧
    (∀ j v, j < retries → (∀ k, k < j → ∃ e, call k = Except.error e) →
      call j = Except.ok v →
      executeTool serverName true call retries delay =
        Except.ok ⟨Except.ok (some v), j + 1, List.replicate j delay⟩) := by
  constructor
  · intro hfail
    have h := execAttempts_all_fail call errf delay retries hr 0 0 []
      (fun k hk => by simpa using hfail k hk)
    unfold executeTool
    rw [if_neg (by simp), h]
    simp
  · intro j v hj hprev hok
    have h := execAttempts_first_ok call delay v j retries 0 0 [] hj
      (fun k hk => by simpa using hprev k hk) (by simpa using hok)
    unfold executeTool
    rw [if_neg (by simp), h]
    simp

/-- Witness for C4: a session call failing twice with the defaults performs
two attempts with one 1.0-second sleep and re-raises; one succeeding at the
second attempt stops there. -/
theorem execute_tool_retry_contract_witness :
    executeTool "xhs" true (fun _ => Except.error "connection reset")
      defaultRetries defaultDelay =
      Except.ok ⟨Except.error "connection reset", defaultRetries, [defaultDelay]⟩ ∧
    executeTool "xhs" true
      (fun k => if k = 0 then Except.error "timeout" else Except.ok "posted")
      defaultRetries defaultDelay =
      Except.ok ⟨Except.ok (some "posted"), 2, [defaultDelay]⟩ := by
  constructor
  · have h := (execute_tool_retry_contract "xhs" (fun _ => Except.error "connection reset")
      (fun _ => "connection reset") defaultRetries defaultDelay (by decide)).1
      (fun k _ => rfl)
    exact h
  · have h := (execute_tool_retry_contract "xhs"
      (fun k => if k = 0 then Except.error "timeout" else Except.ok "posted")
      (fun _ => "timeout") defaultRetries defaultDelay (by decide)).2 1 "posted"
      (by decide) (fun k hk => ⟨"timeout", by interval_cases k; rfl⟩) rfl
    exact h

/-- C5 counterexample: the provider call issued by get_tool_call_response with
the caller-default cap carries no max-tokens at all on the OpenAI adapter
(and 4096, not 32000, on the Anthropic adapter), refuting the claim that it
carries 32000. -/
theorem max_tokens_not_forwarded_counterexample :
    (getToolCallRequestOpenAI "claude-sonnet-4-20250514" [] none defaultMaxTokens).max_tokens
      = none ∧
    (getToolCallRequestOpenAI "claude-sonnet-4-20250514" [] none defaultMaxTokens).max_tokens
      ≠ some defaultMaxTokens ∧
    (getToolCallRequestAnthropic "claude-sonnet-4-20250514" [] none defaultMaxTokens).max_tokens
      = 4096 := by
  refine ⟨rfl, fun h => Option.noConfusion h, rfl⟩

/-- C5 (amended): get_tool_call_response passes temperature (0.8) through
unchanged but never forwards its max_tokens parameter (default 32000): the
OpenAI-format provider call carries no max-tokens and the Anthropic provider
call defaults to 4096, whatever the caller's value; an explicitly supplied
kwargs max_tokens/temperature would pass through both adapters unchanged. -/
theorem numeric_controls_contract (model : String) (messages : List ChatMessage)
    (tools : Option (List String)) (max_tokens : Nat) (kw : Kwargs) :
    (getToolCallKwargs tools max_tokens).max_tokens = none ∧
    (getToolCallRequestOpenAI model messages tools max_tokens).max_tokens = none ∧
    (getToolCallRequestOpenAI model messages tools max_tokens).temperature =
      some ((8 : ℚ) / 10) ∧
    (getToolCallRequestAnthropic model messages tools max_tokens).max_tokens = 4096 ∧
    (getToolCallRequestAnthropic model messages tools max_tokens).temperature =
      some ((8 : ℚ) / 10) ∧
    (∀ t, kw.temperature = some t →
      (openAIChatCompletion model messages tools kw).temperature = some t ∧
      (anthropicChatCompletion model messages tools kw).temperature = some t) ∧
    (∀ n, kw.max_tokens = some n →
      (openAIChatCompletion model messages tools kw).max_tokens = some n ∧
      (anthropicChatCompletion model messages tools kw).max_tokens = n) := by
  refine ⟨rfl, ?_, ?_, rfl, rfl, ?_, ?_⟩
  · unfold getToolCallRequestOpenAI openAIChatCompletion getToolCallKwargs
    by_cases h : toolsTruthy tools <;> simp [h]
  · unfold getToolCallRequestOpenAI openAIChatCompletion getToolCallKwargs
    by_cases h : toolsTruthy tools <;> simp [h]
  · intro t ht
    obtain ⟨tcw, tpw, mtw⟩ := kw
    simp only [Kwargs.temperature] at ht
    subst ht
    constructor
    · unfold openAIChatCompletion
      by_cases h : toolsTruthy tools <;> cases mtw <;> simp [h]
    · rfl
  · intro n hn
    obtain ⟨tcw, tpw, mtw⟩ := kw
    simp only [Kwargs.max_tokens] at hn
    subst hn
    constructor
    · unfold openAIChatCompletion
      by_cases h : toolsTruthy tools <;> cases tpw <;> simp [h]
    · rfl

/-- Witness for C5 (amended): concrete requests with and without caller
kwargs. -/
theorem numeric_controls_contract_witness :
    (getToolCallRequestOpenAI "claude-sonnet-4-20250514" [] (some ["search_web"])
      defaultMaxTokens).max_tokens = none ∧
    (getToolCallRequestAnthropic "claude-sonnet-4-20250514" [] (some ["search_web"])
      defaultMaxTokens).max_tokens = 4096 ∧
    (openAIChatCompletion "claude-sonnet-4-20250514" [] none passKwargs).max_tokens =
      some 9000 ∧
    (anthropicChatCompletion "claude-sonnet-4-20250514" [] none passKwargs).temperature =
      some ((1 : ℚ) / 2) := by
  have h := numeric_controls_contract "claude-sonnet-4-20250514" [] (some ["search_web"])
    defaultMaxTokens passKwargs
  have h2 := numeric_controls_contract "claude-sonnet-4-20250514" [] none
    defaultMaxTokens passKwargs
  exact ⟨h.2.1, h.2.2.2.1, (h2.2.2.2.2.2.2 9000 rfl).1, (h2.2.2.2.2.2.1 ((1 : ℚ) / 2) rfl).2⟩

/-- C6 counterexample: with two system messages in the conversation, the
outgoing Anthropic request's system slot carries the content of the second
(last) one, not the first, refuting the claim. -/
theorem anthropic_system_first_counterexample :
    (anthropicChatCompletion "claude-sonnet-4-20250514" twoSystemMsgs none noKwargs).system =
      some "decide whether to continue" ∧
    (anthropicChatCompletion "claude-sonnet-4-20250514" twoSystemMsgs none noKwargs).system ≠
      some "you are a content expert" := by
  exact ⟨rfl, by decide⟩

/-- C6 (amended): for a conversation whose last system message has non-empty
content c, the Anthropic request's system slot carries c — the extraction
loop overwrites, so the last system message wins, not the first. -/
theorem anthropic_system_last_wins (model : String) (pre post : List ChatMessage)
    (c : String) (tools : Option (List String)) (kw : Kwargs)
    (hpost : ∀ m ∈ post, m.isSystem = false) (hc : c ≠ "") :
    (anthropicChatCompletion model (pre ++ ChatMessage.system c :: post) tools kw).system =
      some c := by
  have hpost2 : ∀ m ∈ post.map convertMessage, m.isSystem = false := by
    intro m hm
    obtain ⟨m0, hm0, rfl⟩ := List.mem_map.mp hm
    rw [convertMessage_isSystem]
    exact hpost m0 hm0
  have hfst : (extractSystemAux ((pre ++ ChatMessage.system c :: post).map convertMessage)
      none []).1 = some c := by
    rw [List.map_append, List.map_cons, extractSystemAux_append]
    simp only [convertMessage, extractSystemAux]
    exact extractSystemAux_fst_nosys _ _ _ hpost2
  simp only [anthropicChatCompletion]
  rw [hfst]
  show (if c = "" then none else some c) = some c
  rw [if_neg hc]

/-- Witness for C6 (amended): a conversation in which the step system prompt
is followed by the appended decision prompt. -/
theorem anthropic_system_last_wins_witness :
    (anthropicChatCompletion "claude-sonnet-4-20250514"
      ([ChatMessage.system "step system prompt"] ++
        ChatMessage.system "decision prompt" :: [ChatMessage.user "go"]) none noKwargs).system =
      some "decision prompt" := by
  exact anthropic_system_last_wins "claude-sonnet-4-20250514"
    [ChatMessage.system "step system prompt"] [ChatMessage.user "go"]
    "decision prompt" none noKwargs
    (by intro m hm; simp only [List.mem_singleton] at hm; subst hm; rfl)
    (by decide)

/-- C7 counterexample: when the underlying close raises, the assignments in
the try block are skipped, so cleanup returns with the session reference
still set — refuting the claim that the session is None whether or not the
close succeeded. -/
theorem cleanup_session_counterexample :
    cleanup (Except.error "stream already closed") ⟨some "live-session", none⟩ =
      ⟨some "live-session", none⟩ ∧
    (cleanup (Except.error "stream already closed") ⟨some "live-session", none⟩).session ≠
      none := ⟨rfl, by decide⟩

/-- C7 (amended): cleanup never raises — any close error is swallowed, leaving
the whole connection state unchanged — the session and stdio_context are
nulled exactly when the close succeeds, and a second cleanup likewise
produces no error, with the session nulled once a close succeeds. -/
theorem cleanup_swallows_errors (o : Except String Unit) (c : ServerConn) :
    (∀ e, o = Except.error e → cleanup o c = c) ∧
    (o = Except.ok () → (cleanup o c).session = none ∧ (cleanup o c).stdioContext = none) ∧
    ((cleanup (Except.ok ()) (cleanup o c)).session = none ∧
      (cleanup (Except.ok ()) (cleanup o c)).stdioContext = none) := by
  refine ⟨?_, ?_, ?_⟩
  · intro e he; subst he; rfl
  · intro he; subst he; exact ⟨rfl, rfl⟩
  · cases o with
    | ok u => exact ⟨rfl, rfl⟩
    | error e => exact ⟨rfl, rfl⟩

/-- Witness for C7 (amended): a failed close leaves the state unchanged and a
successful close nulls the session. -/
theorem cleanup_swallows_errors_witness :
    cleanup (Except.error "close failed") ⟨some "sess", some "ctx"⟩ =
      ⟨some "sess", some "ctx"⟩ ∧
    (cleanup (Except.ok ()) ⟨some "sess", some "ctx"⟩).session = none := by
  exact ⟨(cleanup_swallows_errors (Except.error "close failed")
      ⟨some "sess", some "ctx"⟩).1 "close failed" rfl,
    ((cleanup_swallows_errors (Except.ok ()) ⟨some "sess", some "ctx"⟩).2.1 rfl).1⟩

/-- C8: when the initial model response carries zero tool invocations, exactly
one model call is made (callsMade = 1), the recorded iteration count is zero,
the step succeeds and its final answer is that response's content (empty
fallback when the content is None or empty). -/
theorem zero_toolcalls_single_call (env : StepEnv) (stepId stepTitle sp up : String)
    (h0 : (env.model 0).toolCalls = []) :
    (execStep env stepId stepTitle sp up).callsMade = 1 ∧
    (execStep env stepId stepTitle sp up).totalIterations = 0 ∧
    (execStep env stepId stepTitle sp up).response = pyOr (env.model 0).content "" ∧
    (execStep env stepId stepTitle sp up).success = true := by
  have hie : (env.model 0).toolCalls.isEmpty = true := by rw [h0]; rfl
  simp [execStep, hie]

/-- Witness for C8: a run whose model answers directly. -/
theorem zero_toolcalls_single_call_witness :
    (execStep directAnswerEnv "step1" "检索" "sys" "usr").callsMade = 1 ∧
    (execStep directAnswerEnv "step1" "检索" "sys" "usr").totalIterations = 0 ∧
    (execStep directAnswerEnv "step1" "检索" "sys" "usr").response =
      pyOr (directAnswerEnv.model 0).content "" ∧
    (execStep directAnswerEnv "step1" "检索" "sys" "usr").success = true := by
  exact zero_toolcalls_single_call directAnswerEnv "step1" "检索" "sys" "usr" rfl

/-- C9: ConfigManager.load_config never raises — a missing configuration file
yields the empty dictionary, any open or JSON-parse failure is caught and
yields the empty dictionary, and a successful read yields the parsed
dictionary. -/
theorem load_config_never_raises (fileExists : Bool)
    (readResult : Except String (List (String × String))) :
    (fileExists = false → loadConfig fileExists readResult = []) ∧
    (∀ e, readResult = Except.error e → loadConfig fileExists readResult = []) ∧
    (∀ cfg, fileExists = true → readResult = Except.ok cfg →
      loadConfig fileExists readResult = cfg) := by
  refine ⟨?_, ?_, ?_⟩
  · intro h; subst h; rfl
  · intro e he; subst he; cases fileExists <;> rfl
  · intro cfg hf hr; subst hf; subst hr; rfl

/-- Witness for C9: a parse failure, a missing file and a successful read. -/
theorem load_config_never_raises_witness :
    loadConfig true (Except.error "Expecting value: line 1 column 1") = [] ∧
    loadConfig false (Except.ok [("llm_api_key", "sk-test")]) = [] ∧
    loadConfig true (Except.ok [("llm_api_key", "sk-test")]) = [("llm_api_key", "sk-test")] := by
  exact ⟨(load_config_never_raises true _).2.1 _ rfl,
    (load_config_never_raises false _).1 rfl,
    (load_config_never_raises true _).2.2 _ rfl rfl⟩

/-- C10: the GET /api/config handler reveals no secret values — two stored
configurations that agree on the non-secret fields and hold non-empty secrets
produce identical responses, each secret reported as the literal mask, and
an absent or empty secret is reported as the empty string. -/
theorem get_config_masks_secrets (cfg1 cfg2 : List (String × String))
    (hprov : pyGet cfg1 "api_provider" = pyGet cfg2 "api_provider")
    (hurl : pyGet cfg1 "openai_base_url" = pyGet cfg2 "openai_base_url")
    (hmodel : pyGet cfg1 "default_model" = pyGet cfg2 "default_model")
    (hxhs : pyGet cfg1 "xhs_mcp_url" = pyGet cfg2 "xhs_mcp_url")
    (hl1 : truthyStr (pyGet cfg1 "llm_api_key") = true)
    (hl2 : truthyStr (pyGet cfg2 "llm_api_key") = true)
    (hj1 : truthyStr (pyGet cfg1 "jina_api_key") = true)
    (hj2 : truthyStr (pyGet cfg2 "jina_api_key") = true)
    (ht1 : truthyStr (pyGet cfg1 "tavily_api_key") = true)
    (ht2 : truthyStr (pyGet cfg2 "tavily_api_key") = true) :
    safeConfigOf cfg1 = safeConfigOf cfg2 ∧
    (safeConfigOf cfg1).llm_api_key = "***" ∧
    (safeConfigOf cfg1).jina_api_key = "***" ∧
    (safeConfigOf cfg1).tavily_api_key = "***" ∧
    (∀ cfg, truthyStr (pyGet cfg "llm_api_key") = false →
      (safeConfigOf cfg).llm_api_key = "") ∧
    (∀ cfg, truthyStr (pyGet cfg "jina_api_key") = false →
      (safeConfigOf cfg).jina_api_key = "") ∧
    (∀ cfg, truthyStr (pyGet cfg "tavily_api_key") = false →
      (safeConfigOf cfg).tavily_api_key = "") := by
  refine ⟨?_, ?_, ?_, ?_, ?_, ?_, ?_⟩
  · unfold safeConfigOf pyGetD maskSecret
    rw [hprov, hurl, hmodel, hxhs, hl1, hl2, hj1, hj2, ht1, ht2]
  · unfold safeConfigOf maskSecret
    rw [hl1]
    rfl
  · unfold safeConfigOf maskSecret
    rw [hj1]
    rfl
  · unfold safeConfigOf maskSecret
    rw [ht1]
    rfl
  · intro cfg h
    unfold safeConfigOf maskSecret
    rw [h]
    rfl
  · intro cfg h
    unfold safeConfigOf maskSecret
    rw [h]
    rfl
  · intro cfg h
    unfold safeConfigOf maskSecret
    rw [h]
    rfl

/-- Witness for C10: two configurations differing only in their non-empty
secret values produce the same masked response. -/
theorem get_config_masks_secrets_witness :
    safeConfigOf cfgA = safeConfigOf cfgB ∧
    (safeConfigOf cfgA).llm_api_key = "***" := by
  have h := get_config_masks_secrets cfgA cfgB rfl rfl rfl rfl rfl rfl rfl rfl rfl rfl
  exact ⟨h.1, h.2.1⟩

end Xhs
